import Mathlib

/-!
Shallow embedding of the two extinction-law routines of the repository:
`exctinction_R136` in src/R136_Extinction_Law.py (namespace `ExtinctionLaw`
below) and `exctinction_R136` in src/R136_redlaw.py (namespace `Redlaw`).

Modelling choices:
- NumPy float arithmetic is modelled exactly over `ℚ`; NumPy 1-d arrays are
  Lean lists of rationals.
- Index arrays produced by `np.where(cond)[0]` are lists of natural-number
  indices in increasing order (`np_where`).
- Fancy-indexed assignment `curve[idx] = vals` is the `scatter` operation,
  which sets position `idx[k]` of the list to `vals[k]` for each `k`.
- The SciPy routines `interpolate.splrep` / `interpolate.splev` are external
  library code, not part of this repository, so the composite operation
  "fit a cubic spline through control points `(xs, ys)` and evaluate it at a
  point" is an uninterpreted parameter
  `spl : List ℚ → List ℚ → ℚ → ℚ` of the embedded functions.
- The two source files share their whole pipeline verbatim except for the
  values of `c2` and `c4` and the optical/NIR anchor tables; the shared lines
  are embedded once (`exctinction_pipeline` and its stages) and each file's
  function instantiates them with its own constants, which are kept under the
  file's namespace with the source variable names.
-/

namespace R136

/-- np.polyval p x: polynomial evaluation with coefficients ordered from the
highest degree down to the constant term, by the Horner scheme, as in NumPy.
The source always calls it as `np.polyval(lst[::-1], Rv)`, embedded as
`np_polyval (List.reverse lst) Rv`. -/
def np_polyval (p : List ℚ) (x : ℚ) : ℚ := p.foldl (fun acc a => acc * x + a) 0

/-- Source line (both files): `c3 = 1.463`. -/
def c3 : ℚ := 1.463

/-- Source line (both files): `c5 = 5.9`. -/
def c5 : ℚ := 5.9

/-- Source line (both files): `x0 = 4.558`. -/
def x0 : ℚ := 4.558

/-- Source line (both files): `gamma = 0.945`. -/
def gamma : ℚ := 0.945

/-- Source line (both files): `xcutuv = 10000.0/2700.0`. -/
def xcutuv : ℚ := 10000 / 2700

/-- Source line (both files): `xspluv = 10000.0/np.array([2700.0,2600.0])`. -/
def xspluv : List ℚ := [2700, 2600].map (fun w => (10000 : ℚ) / w)

/-- Source line (both files): `xx = 10000./ np.array(waves)` (elementwise). -/
def xx (waves : List ℚ) : List ℚ := waves.map (fun w => (10000 : ℚ) / w)

/-- Model of `np.where(cond)[0]` on a 1-d array: the list of the indices whose
element satisfies the predicate, in increasing index order. -/
def np_where (p : ℚ → Prop) [DecidablePred p] (l : List ℚ) : List ℕ :=
  (List.range l.length).filter (fun i => decide (p (l.getD i 0)))

/-- Source line (both files): `iuv = np.where(xx >= xcutuv)[0]`. -/
def iuv (waves : List ℚ) : List ℕ := np_where (fun x => xcutuv ≤ x) (xx waves)

/-- Source line (both files): `iopir = np.where(xx < xcutuv)[0]`. -/
def iopir (waves : List ℚ) : List ℕ := np_where (fun x => x < xcutuv) (xx waves)

/-- Source lines (both files): `if (len(iuv) > 0): xuv =
np.concatenate((xspluv,xx[iuv]))` / `else: xuv = xspluv`. -/
def xuv (waves : List ℚ) : List ℚ :=
  if 0 < (iuv waves).length
  then xspluv ++ (iuv waves).map (fun i => (xx waves).getD i 0)
  else xspluv

/-- Denominator of the 2175 Å bump term, `(xuv**2-x0**2)**2 +(xuv*gamma)**2`
at one coordinate. -/
def uvDenom (x : ℚ) : ℚ := (x ^ 2 - x0 ^ 2) ^ 2 + (x * gamma) ^ 2

/-- Value of `yuv` at one coordinate: the three vectorised assignments
`yuv = c1 + c2*xuv`, `yuv = yuv + c3*xuv**2/((xuv**2-x0**2)**2+(xuv*gamma)**2)`
and `yuv = yuv + c4*(0.5392*(np.maximum(xuv,c5)-c5)**2 +
0.05644*(np.maximum(xuv,c5)-c5)**3) + Rv`, combined. -/
def yuv_point (c1v c2v c4v Rv x : ℚ) : ℚ :=
  c1v + c2v * x + c3 * x ^ 2 / uvDenom x
    + c4v * (0.5392 * (max x c5 - c5) ^ 2 + 0.05644 * (max x c5 - c5) ^ 3) + Rv

/-- The vector `yuv`, the UV formula mapped over `xuv`. -/
def yuvList (c1v c2v c4v Rv : ℚ) (waves : List ℚ) : List ℚ :=
  (xuv waves).map (yuv_point c1v c2v c4v Rv)

/-- Source line (both files): `yspluv = yuv[0:2]`. -/
def yspluvList (c1v c2v c4v Rv : ℚ) (waves : List ℚ) : List ℚ :=
  (yuvList c1v c2v c4v Rv waves).take 2

/-- Helper for `scatter`: perform the updates `c[i] := v` for each pair
`(i, v)` of the list, left to right. -/
def setAll (c : List ℚ) (l : List (ℕ × ℚ)) : List ℚ :=
  l.foldl (fun c iv => c.set iv.1 iv.2) c

/-- NumPy fancy-indexed assignment `c[idx] = vals` (the source only uses it
with `len(idx) = len(vals)`). -/
def scatter (c : List ℚ) (idx : List ℕ) (vals : List ℚ) : List ℚ :=
  setAll c (idx.zip vals)

/-- Source line (both files): `curve = xx*0.`. -/
def curve0 (waves : List ℚ) : List ℚ := (xx waves).map (fun x => x * 0)

/-- The curve after the UV scatter, source lines (both files):
`if (len(iuv) > 0): curve[iuv] = yuv[2::]`. -/
def curveUV (c1v c2v c4v Rv : ℚ) (waves : List ℚ) : List ℚ :=
  if 0 < (iuv waves).length
  then scatter (curve0 waves) (iuv waves) ((yuvList c1v c2v c4v Rv waves).drop 2)
  else curve0 waves

/-- The curve after the optical/NIR branch, source lines (both files):
`if (len(iopir) > 0): tck=interpolate.splrep(np.concatenate((xsplopir,xspluv)),
np.concatenate((ysplopir,yspluv)),k=3); curve[iopir] =
interpolate.splev(xx[iopir], tck)`, with splrep/splev modelled by the
uninterpreted `spl`. -/
def curveFull (c1v c2v c4v : ℚ) (xso yso : List ℚ)
    (spl : List ℚ → List ℚ → ℚ → ℚ) (waves : List ℚ) (Rv : ℚ) : List ℚ :=
  if 0 < (iopir waves).length
  then scatter (curveUV c1v c2v c4v Rv waves) (iopir waves)
    (((iopir waves).map (fun i => (xx waves).getD i 0)).map
      (spl (xso ++ xspluv) (yso ++ yspluvList c1v c2v c4v Rv waves)))
  else curveUV c1v c2v c4v Rv waves

/-- The whole pipeline shared verbatim by the two source files, parameterised
by the variant data (`c2`, `c4` and the optical/NIR anchor tables `xsplopir`,
`ysplopir`); `c1 = 2.030 - 3.007*c2` as in both files; the returned value is
`Alam_Av = curve/Rv`. -/
def exctinction_pipeline (c2v c4v : ℚ) (xso yso : List ℚ)
    (spl : List ℚ → List ℚ → ℚ → ℚ) (waves : List ℚ) (Rv : ℚ) : List ℚ :=
  (curveFull (2.030 - 3.007 * c2v) c2v c4v xso yso spl waves Rv).map
    (fun c => c / Rv)

/-- Error type of the error-handling design of the spec (section 7).  The
source files raise neither: their bodies contain no validation and no raise
statement, and none of the NumPy/SciPy calls they make raises on float
inputs (division by zero and invalid values only emit RuntimeWarnings and
propagate non-finite floats). -/
inductive ExtError
  | InvalidInput
  | NumericalFailure
deriving DecidableEq

namespace ExtinctionLaw

/-- Source line: `c2 = 0.78 + 0.11*Rv` (src/R136_Extinction_Law.py). -/
def c2 (Rv : ℚ) : ℚ := 0.78 + 0.11 * Rv

/-- Source line: `c1 = 2.030 - 3.007*c2`. -/
def c1 (Rv : ℚ) : ℚ := 2.030 - 3.007 * c2 Rv

/-- Source line: `c4 = 0.13`. -/
def c4 : ℚ := 0.13

/-- Source line: `spline_arr =
10000.0/np.array([26500.0,12200.0,6000.0,5470.0,4670.0,4110.0])`. -/
def spline_arr : List ℚ :=
  [26500, 12200, 6000, 5470, 4670, 4110].map (fun w => (10000 : ℚ) / w)

/-- Source line: `xsplopir = np.concatenate(([0],spline_arr))`. -/
def xsplopir : List ℚ := [0] ++ spline_arr

/-- Source line: `ysplir = np.array([0.0,0.26469,0.82925])*Rv/3.1`. -/
def ysplir (Rv : ℚ) : List ℚ := [0, 0.26469, 0.82925].map (fun r => r * Rv / 3.1)

/-- Source lines: `ysplop = np.array((np.polyval([...][::-1], Rv), ...))`. -/
def ysplop (Rv : ℚ) : List ℚ :=
  [np_polyval (List.reverse [-4.22809e-1, 1.0027, 2.13572e-4]) Rv,
   np_polyval (List.reverse [-5.13540e-2, 1.00216, -7.35778e-5]) Rv,
   np_polyval (List.reverse [7.00127e-1, 1.00184, -3.32598e-5]) Rv,
   np_polyval (List.reverse
     [1.19456, 1.01707, -5.46959e-3, 7.97809e-4, -4.45636e-5]) Rv]

/-- Source line: `ysplopir = np.concatenate((ysplir,ysplop))`. -/
def ysplopir (Rv : ℚ) : List ℚ := ysplir Rv ++ ysplop Rv

/-- Embedding of `exctinction_R136` from src/R136_Extinction_Law.py: the
shared pipeline instantiated with this file's `c2`, `c4` and anchor tables. -/
def exctinction_R136 (spl : List ℚ → List ℚ → ℚ → ℚ)
    (waves : List ℚ) (Rv : ℚ) : List ℚ :=
  exctinction_pipeline (c2 Rv) c4 xsplopir (ysplopir Rv) spl waves Rv

/-- The same call with the fallibility of a Python call made explicit as an
`Except`: the body of the source function contains no validation and no
raise statement and none of its library calls raises on float inputs, so the
translated body always returns normally. -/
def exctinction_R136_exc (spl : List ℚ → List ℚ → ℚ → ℚ)
    (waves : List ℚ) (Rv : ℚ) : Except ExtError (List ℚ) :=
  Except.ok (exctinction_R136 spl waves Rv)

end ExtinctionLaw

namespace Redlaw

/-- Source line: `c2 = 1.30` (src/R136_redlaw.py). -/
def c2 : ℚ := 1.30

/-- Source line: `c1 = 2.030 - 3.007*c2`. -/
def c1 : ℚ := 2.030 - 3.007 * c2

/-- Source line: `c4 = 0.09`. -/
def c4 : ℚ := 0.09

/-- Source line: `spline_arr = 10000.0/np.array([26500.0, 18000.0, 12200.0,
10000.0, 8696.0, 5495.0, 4670.0, 4405.0, 4110.0, 3704.0, 3304.0])`. -/
def spline_arr : List ℚ :=
  [26500, 18000, 12200, 10000, 8696, 5495, 4670, 4405, 4110, 3704,
   3304].map (fun w => (10000 : ℚ) / w)

/-- Source line: `xsplopir = np.concatenate(([0],spline_arr))`. -/
def xsplopir : List ℚ := [0] ++ spline_arr

/-- Source lines: `ysplopir = np.array((np.polyval([...][::-1], Rv), ...))`
(the first assignment to `ysplopir`, before the 0 is prepended). -/
def ysplopir_tbl (Rv : ℚ) : List ℚ :=
  [np_polyval (List.reverse [-0.1097, 0.1195]) Rv,
   np_polyval (List.reverse [-0.2046, 0.2228]) Rv,
   np_polyval (List.reverse [-0.3826, 0.4167]) Rv,
   np_polyval (List.reverse [-0.5270, 0.5740]) Rv,
   np_polyval (List.reverse [-0.6392, 0.7147]) Rv,
   np_polyval (List.reverse [-0.0002, 1.0000]) Rv,
   np_polyval (List.reverse [0.7455, 1.0023]) Rv,
   np_polyval (List.reverse [1.0004, 1.0000]) Rv,
   np_polyval (List.reverse [1.3149, 0.9887]) Rv,
   np_polyval (List.reverse [1.7931, 0.9661]) Rv,
   np_polyval (List.reverse [2.2580, 0.9689]) Rv]

/-- Source line: `ysplopir = np.concatenate((np.array([0]),ysplopir))`. -/
def ysplopir (Rv : ℚ) : List ℚ := [0] ++ ysplopir_tbl Rv

/-- Embedding of `exctinction_R136` from src/R136_redlaw.py: the shared
pipeline instantiated with this file's `c2`, `c4` and anchor tables. -/
def exctinction_R136 (spl : List ℚ → List ℚ → ℚ → ℚ)
    (waves : List ℚ) (Rv : ℚ) : List ℚ :=
  exctinction_pipeline c2 c4 xsplopir (ysplopir Rv) spl waves Rv

/-- The same call with the fallibility of a Python call made explicit as an
`Except`; as in the other file, the translated body always returns
normally. -/
def exctinction_R136_exc (spl : List ℚ → List ℚ → ℚ → ℚ)
    (waves : List ℚ) (Rv : ℚ) : Except ExtError (List ℚ) :=
  Except.ok (exctinction_R136 spl waves Rv)

end Redlaw

/-- The per-wavelength value realised by the pipeline: the value the output
holds at an input wavelength `lam`, as established by `pipeline_getD` below.
UV inputs (`10000/lam ≥ xcutuv`) receive the UV formula, optical/NIR inputs
receive the spline fitted through the anchor table followed by the two UV
boundary values; everything is divided by `Rv` at the end. -/
def Alam_Av_point (c2v c4v : ℚ) (xso yso : List ℚ)
    (spl : List ℚ → List ℚ → ℚ → ℚ) (Rv lam : ℚ) : ℚ :=
  (if xcutuv ≤ 10000 / lam
   then yuv_point (2.030 - 3.007 * c2v) c2v c4v Rv (10000 / lam)
   else spl (xso ++ xspluv)
     (yso ++ xspluv.map (yuv_point (2.030 - 3.007 * c2v) c2v c4v Rv))
     (10000 / lam)) / Rv

/-- Per-wavelength value of the src/R136_Extinction_Law.py variant. -/
def ExtinctionLaw.Alam_Av_lam (spl : List ℚ → List ℚ → ℚ → ℚ)
    (Rv lam : ℚ) : ℚ :=
  Alam_Av_point (c2 Rv) c4 xsplopir (ysplopir Rv) spl Rv lam

/-- Per-wavelength value of the src/R136_redlaw.py variant. -/
def Redlaw.Alam_Av_lam (spl : List ℚ → List ℚ → ℚ → ℚ)
    (Rv lam : ℚ) : ℚ :=
  Alam_Av_point c2 c4 xsplopir (ysplopir Rv) spl Rv lam

/-- Frame model of the shared pipeline: the same computation, returning the
caller's `waves` array alongside the result.  In the source every assignment
statement targets a local variable (`c2` … `gamma`, `xx`, `curve`,
`xcutuv`, `xspluv`, `iuv`, `iopir`, `xuv`, `yuv`, `yspluv`, the anchor
tables, `tck`, `Alam_Av`), the two subscript assignments `curve[iuv] = ...`
and `curve[iopir] = ...` both write into `curve`, and `xx` is built from the
fresh copy `np.array(waves)`; no statement writes to `waves`, so the array
the caller passed is returned unchanged. -/
def exctinction_pipeline_frame (c2v c4v : ℚ) (xso yso : List ℚ)
    (spl : List ℚ → List ℚ → ℚ → ℚ) (waves : List ℚ) (Rv : ℚ) :
    List ℚ × List ℚ :=
  (waves,
   (curveFull (2.030 - 3.007 * c2v) c2v c4v xso yso spl waves Rv).map
     (fun c => c / Rv))

/-- Frame model of the src/R136_Extinction_Law.py variant. -/
def ExtinctionLaw.exctinction_R136_frame (spl : List ℚ → List ℚ → ℚ → ℚ)
    (waves : List ℚ) (Rv : ℚ) : List ℚ × List ℚ :=
  exctinction_pipeline_frame (c2 Rv) c4 xsplopir (ysplopir Rv) spl waves Rv

/-- Frame model of the src/R136_redlaw.py variant. -/
def Redlaw.exctinction_R136_frame (spl : List ℚ → List ℚ → ℚ → ℚ)
    (waves : List ℚ) (Rv : ℚ) : List ℚ × List ℚ :=
  exctinction_pipeline_frame c2 c4 xsplopir (ysplopir Rv) spl waves Rv

/-- A trivial concrete stand-in for the SciPy spline routine, used to
instantiate the uninterpreted `spl` parameter on concrete inputs. -/
def spl0 : List ℚ → List ℚ → ℚ → ℚ := fun _ _ _ => 0

/-- A second concrete stand-in, different from `spl0`. -/
def spl1 : List ℚ → List ℚ → ℚ → ℚ := fun _ _ _ => 1

/-! Generic list lemmas used to reason about the vectorised operations. -/

lemma getD_map_of_lt (l : List ℚ) (f : ℚ → ℚ) (i : ℕ) (h : i < l.length) :
    (l.map f).getD i 0 = f (l.getD i 0) := by
  simp [List.getD_eq_getElem?_getD, List.getElem?_eq_getElem, h]

lemma zip_self_map (g : ℕ → ℚ) (l : List ℕ) :
    l.zip (l.map g) = l.map (fun i => (i, g i)) := by
  have h := List.zip_map' (fun i : ℕ => i) g l
  simpa [List.map_id'] using h

lemma length_setAll : ∀ (l : List (ℕ × ℚ)) (c : List ℚ),
    (setAll c l).length = c.length := by
  intro l
  induction l with
  | nil => intro c; rfl
  | cons iv t ih =>
    intro c
    show (setAll (c.set iv.1 iv.2) t).length = c.length
    rw [ih]
    exact List.length_set c iv.1 iv.2

lemma length_scatter (c : List ℚ) (idx : List ℕ) (vals : List ℚ) :
    (scatter c idx vals).length = c.length := length_setAll _ _

lemma getD_setAll_pairs (g : ℕ → ℚ) :
    ∀ (idx : List ℕ) (c : List ℚ) (j : ℕ), j < c.length →
    (setAll c (idx.map (fun i => (i, g i)))).getD j 0 =
      if j ∈ idx then g j else c.getD j 0 := by
  intro idx
  induction idx with
  | nil => intro c j _; simp [setAll]
  | cons a t ih =>
    intro c j hj
    show (setAll (c.set a (g a)) (t.map fun i => (i, g i))).getD j 0 = _
    rw [ih (c.set a (g a)) j (by simpa using hj)]
    by_cases hjt : j ∈ t
    · simp [hjt, List.mem_cons]
    · by_cases hja : j = a
      · subst hja
        simp [hjt, List.getD_eq_getElem?_getD, List.getElem?_set_self hj]
      · simp [hjt, hja, List.mem_cons, List.getD_eq_getElem?_getD,
          List.getElem?_set_ne (fun h => hja h.symm)]

lemma getD_scatter_map (c : List ℚ) (idx : List ℕ) (g : ℕ → ℚ) (j : ℕ)
    (hj : j < c.length) :
    (scatter c idx (idx.map g)).getD j 0 =
      if j ∈ idx then g j else c.getD j 0 := by
  rw [scatter, zip_self_map]
  exact getD_setAll_pairs g idx c j hj

lemma mem_np_where (p : ℚ → Prop) [DecidablePred p] (l : List ℚ) (i : ℕ) :
    i ∈ np_where p l ↔ i < l.length ∧ p (l.getD i 0) := by
  simp [np_where, List.mem_filter, List.mem_range]

/-! Stage lemmas: the value each intermediate array of the pipeline holds at
a position, and the lengths of the arrays. -/

lemma length_xx (waves : List ℚ) : (xx waves).length = waves.length := by
  simp [xx]

lemma xx_getD (waves : List ℚ) (j : ℕ) (hj : j < waves.length) :
    (xx waves).getD j 0 = 10000 / waves.getD j 0 :=
  getD_map_of_lt waves _ j hj

lemma length_curve0 (waves : List ℚ) :
    (curve0 waves).length = waves.length := by
  simp [curve0, xx]

lemma mem_iuv (waves : List ℚ) (j : ℕ) :
    j ∈ iuv waves ↔ j < waves.length ∧ xcutuv ≤ (xx waves).getD j 0 := by
  rw [iuv, mem_np_where, length_xx]

lemma mem_iopir (waves : List ℚ) (j : ℕ) :
    j ∈ iopir waves ↔ j < waves.length ∧ (xx waves).getD j 0 < xcutuv := by
  rw [iopir, mem_np_where, length_xx]

lemma length_curveUV (c1v c2v c4v Rv : ℚ) (waves : List ℚ) :
    (curveUV c1v c2v c4v Rv waves).length = waves.length := by
  unfold curveUV
  by_cases h : 0 < (iuv waves).length
  · rw [if_pos h, length_scatter, length_curve0]
  · rw [if_neg h, length_curve0]

lemma curveUV_getD (c1v c2v c4v Rv : ℚ) (waves : List ℚ) (j : ℕ)
    (hj : j < waves.length) :
    (curveUV c1v c2v c4v Rv waves).getD j 0 =
      if xcutuv ≤ (xx waves).getD j 0
      then yuv_point c1v c2v c4v Rv ((xx waves).getD j 0)
      else (curve0 waves).getD j 0 := by
  unfold curveUV
  by_cases hpos : 0 < (iuv waves).length
  · rw [if_pos hpos]
    have hxuv : xuv waves
        = xspluv ++ (iuv waves).map (fun i => (xx waves).getD i 0) := by
      rw [xuv, if_pos hpos]
    have hdrop : (yuvList c1v c2v c4v Rv waves).drop 2 =
        (iuv waves).map
          (fun i => yuv_point c1v c2v c4v Rv ((xx waves).getD i 0)) := by
      rw [yuvList, hxuv, List.map_append,
        List.drop_left'
          (by simp [xspluv] :
            (xspluv.map (yuv_point c1v c2v c4v Rv)).length = 2),
        List.map_map]
      rfl
    rw [hdrop, getD_scatter_map _ _ _ j (by rw [length_curve0]; exact hj)]
    by_cases hc : xcutuv ≤ (xx waves).getD j 0
    · rw [if_pos ((mem_iuv waves j).mpr ⟨hj, hc⟩), if_pos hc]
    · rw [if_neg (fun hm => hc ((mem_iuv waves j).mp hm).2), if_neg hc]
  · rw [if_neg hpos]
    have hc : ¬ xcutuv ≤ (xx waves).getD j 0 := by
      intro hc
      exact hpos (List.length_pos.mpr
        (List.ne_nil_of_mem ((mem_iuv waves j).mpr ⟨hj, hc⟩)))
    rw [if_neg hc]

lemma yspluvList_eq (c1v c2v c4v Rv : ℚ) (waves : List ℚ) :
    yspluvList c1v c2v c4v Rv waves
      = xspluv.map (yuv_point c1v c2v c4v Rv) := by
  rw [yspluvList, yuvList, xuv]
  by_cases hpos : 0 < (iuv waves).length
  · rw [if_pos hpos, List.map_append,
      List.take_left'
        (by simp [xspluv] :
          (xspluv.map (yuv_point c1v c2v c4v Rv)).length = 2)]
  · rw [if_neg hpos]
    exact List.take_of_length_le (by simp [xspluv])

lemma length_curveFull (c1v c2v c4v : ℚ) (xso yso : List ℚ)
    (spl : List ℚ → List ℚ → ℚ → ℚ) (waves : List ℚ) (Rv : ℚ) :
    (curveFull c1v c2v c4v xso yso spl waves Rv).length = waves.length := by
  unfold curveFull
  by_cases h : 0 < (iopir waves).length
  · rw [if_pos h, length_scatter, length_curveUV]
  · rw [if_neg h, length_curveUV]

lemma curveFull_getD (c1v c2v c4v : ℚ) (xso yso : List ℚ)
    (spl : List ℚ → List ℚ → ℚ → ℚ) (waves : List ℚ) (Rv : ℚ) (j : ℕ)
    (hj : j < waves.length) :
    (curveFull c1v c2v c4v xso yso spl waves Rv).getD j 0 =
      if xcutuv ≤ (xx waves).getD j 0
      then yuv_point c1v c2v c4v Rv ((xx waves).getD j 0)
      else spl (xso ++ xspluv) (yso ++ yspluvList c1v c2v c4v Rv waves)
        ((xx waves).getD j 0) := by
  unfold curveFull
  by_cases hpos : 0 < (iopir waves).length
  · rw [if_pos hpos, List.map_map]
    have hmm : ((iopir waves).map
        ((spl (xso ++ xspluv) (yso ++ yspluvList c1v c2v c4v Rv waves)) ∘
          fun i => (xx waves).getD i 0)) =
        (iopir waves).map (fun i => spl (xso ++ xspluv)
          (yso ++ yspluvList c1v c2v c4v Rv waves)
          ((xx waves).getD i 0)) := rfl
    rw [hmm, getD_scatter_map _ _ _ j (by rw [length_curveUV]; exact hj)]
    by_cases hc : xcutuv ≤ (xx waves).getD j 0
    · rw [if_neg (fun hm =>
          absurd ((mem_iopir waves j).mp hm).2 (not_lt.mpr hc)),
        curveUV_getD c1v c2v c4v Rv waves j hj, if_pos hc, if_pos hc]
    · rw [if_pos ((mem_iopir waves j).mpr ⟨hj, not_le.mp hc⟩), if_neg hc]
  · rw [if_neg hpos]
    have hc : xcutuv ≤ (xx waves).getD j 0 := by
      by_contra hlt
      exact hpos (List.length_pos.mpr (List.ne_nil_of_mem
        ((mem_iopir waves j).mpr ⟨hj, not_le.mp hlt⟩)))
    rw [curveUV_getD c1v c2v c4v Rv waves j hj, if_pos hc, if_pos hc]

lemma pipeline_length (c2v c4v : ℚ) (xso yso : List ℚ)
    (spl : List ℚ → List ℚ → ℚ → ℚ) (waves : List ℚ) (Rv : ℚ) :
    (exctinction_pipeline c2v c4v xso yso spl waves Rv).length
      = waves.length := by
  rw [exctinction_pipeline, List.length_map, length_curveFull]

/-- Master lemma: position `j` of the pipeline output is the per-wavelength
value `Alam_Av_point` of the wavelength at position `j` of the input. -/
lemma pipeline_getD (c2v c4v : ℚ) (xso yso : List ℚ)
    (spl : List ℚ → List ℚ → ℚ → ℚ) (waves : List ℚ) (Rv : ℚ) (j : ℕ)
    (hj : j < waves.length) :
    (exctinction_pipeline c2v c4v xso yso spl waves Rv).getD j 0 =
      Alam_Av_point c2v c4v xso yso spl Rv (waves.getD j 0) := by
  rw [exctinction_pipeline,
    getD_map_of_lt _ _ j (by rw [length_curveFull]; exact hj),
    curveFull_getD _ _ _ _ _ _ _ _ j hj, yspluvList_eq,
    xx_getD waves j hj, Alam_Av_point]

/-! Claim theorems. -/

/-- C1: for every input wavelength whose inverse-micron coordinate
x = 10000/λ is at least 10000/2700 (a UV wavelength), both variants return
at that position exactly (c1 + c2·x + c3·x²/((x²−x0²)² + (x·γ)²)
+ c4·(0.5392·(max(x,c5)−c5)² + 0.05644·(max(x,c5)−c5)³) + Rv) / Rv, with
c1 = 2.030 − 3.007·c2, and no other transformation is applied to the UV
segment. -/
theorem claim_C1_uv_formula (spl : List ℚ → List ℚ → ℚ → ℚ)
    (waves : List ℚ) (Rv : ℚ) (i : ℕ) (hi : i < waves.length)
    (hx : 10000 / 2700 ≤ 10000 / waves.getD i 0) :
    ExtinctionLaw.c1 Rv = 2.030 - 3.007 * ExtinctionLaw.c2 Rv ∧
    Redlaw.c1 = 2.030 - 3.007 * Redlaw.c2 ∧
    (ExtinctionLaw.exctinction_R136 spl waves Rv).getD i 0 =
      (ExtinctionLaw.c1 Rv + ExtinctionLaw.c2 Rv * (10000 / waves.getD i 0)
        + c3 * (10000 / waves.getD i 0) ^ 2
          / (((10000 / waves.getD i 0) ^ 2 - x0 ^ 2) ^ 2
            + ((10000 / waves.getD i 0) * gamma) ^ 2)
        + ExtinctionLaw.c4
          * (0.5392 * (max (10000 / waves.getD i 0) c5 - c5) ^ 2
            + 0.05644 * (max (10000 / waves.getD i 0) c5 - c5) ^ 3)
        + Rv) / Rv ∧
    (Redlaw.exctinction_R136 spl waves Rv).getD i 0 =
      (Redlaw.c1 + Redlaw.c2 * (10000 / waves.getD i 0)
        + c3 * (10000 / waves.getD i 0) ^ 2
          / (((10000 / waves.getD i 0) ^ 2 - x0 ^ 2) ^ 2
            + ((10000 / waves.getD i 0) * gamma) ^ 2)
        + Redlaw.c4
          * (0.5392 * (max (10000 / waves.getD i 0) c5 - c5) ^ 2
            + 0.05644 * (max (10000 / waves.getD i 0) c5 - c5) ^ 3)
        + Rv) / Rv := by
  refine ⟨rfl, rfl, ?_, ?_⟩
  · rw [ExtinctionLaw.exctinction_R136,
      pipeline_getD _ _ _ _ _ _ _ i hi, Alam_Av_point,
      if_pos (show xcutuv ≤ 10000 / waves.getD i 0 from hx)]
    rfl
  · rw [Redlaw.exctinction_R136,
      pipeline_getD _ _ _ _ _ _ _ i hi, Alam_Av_point,
      if_pos (show xcutuv ≤ 10000 / waves.getD i 0 from hx)]
    rfl

/-- Witness for C1 at waves = [2000 Å] (x = 5 inverse microns, UV) and
Rv = 3. -/
theorem claim_C1_uv_formula_witness :
    ((0 : ℕ) < ([(2000 : ℚ)]).length) ∧
    ((10000 / 2700 : ℚ) ≤ 10000 / [(2000 : ℚ)].getD 0 0) ∧
    (ExtinctionLaw.c1 3 = 2.030 - 3.007 * ExtinctionLaw.c2 3 ∧
     Redlaw.c1 = 2.030 - 3.007 * Redlaw.c2 ∧
     (ExtinctionLaw.exctinction_R136 spl0 [(2000 : ℚ)] 3).getD 0 0 =
       (ExtinctionLaw.c1 3
         + ExtinctionLaw.c2 3 * (10000 / [(2000 : ℚ)].getD 0 0)
         + c3 * (10000 / [(2000 : ℚ)].getD 0 0) ^ 2
           / (((10000 / [(2000 : ℚ)].getD 0 0) ^ 2 - x0 ^ 2) ^ 2
             + ((10000 / [(2000 : ℚ)].getD 0 0) * gamma) ^ 2)
         + ExtinctionLaw.c4
           * (0.5392 * (max (10000 / [(2000 : ℚ)].getD 0 0) c5 - c5) ^ 2
             + 0.05644 * (max (10000 / [(2000 : ℚ)].getD 0 0) c5 - c5) ^ 3)
         + 3) / 3 ∧
     (Redlaw.exctinction_R136 spl0 [(2000 : ℚ)] 3).getD 0 0 =
       (Redlaw.c1 + Redlaw.c2 * (10000 / [(2000 : ℚ)].getD 0 0)
         + c3 * (10000 / [(2000 : ℚ)].getD 0 0) ^ 2
           / (((10000 / [(2000 : ℚ)].getD 0 0) ^ 2 - x0 ^ 2) ^ 2
             + ((10000 / [(2000 : ℚ)].getD 0 0) * gamma) ^ 2)
         + Redlaw.c4
           * (0.5392 * (max (10000 / [(2000 : ℚ)].getD 0 0) c5 - c5) ^ 2
             + 0.05644 * (max (10000 / [(2000 : ℚ)].getD 0 0) c5 - c5) ^ 3)
         + 3) / 3) :=
  ⟨by norm_num, by norm_num,
   claim_C1_uv_formula spl0 [(2000 : ℚ)] 3 0 (by norm_num) (by norm_num)⟩

/-- C2: for valid input (nonempty positive wavelengths, nonzero Rv) both
variants return exactly one value per input wavelength, in input order: the
output has the length of the input and its i-th entry is the per-wavelength
extinction value of the i-th input wavelength. -/
theorem claim_C2_length_order (spl : List ℚ → List ℚ → ℚ → ℚ)
    (waves : List ℚ) (Rv : ℚ) (hne : waves ≠ [])
    (hpos : ∀ w ∈ waves, 0 < w) (hRv : Rv ≠ 0) :
    (ExtinctionLaw.exctinction_R136 spl waves Rv).length = waves.length ∧
    (∀ i, i < waves.length →
      (ExtinctionLaw.exctinction_R136 spl waves Rv).getD i 0 =
        ExtinctionLaw.Alam_Av_lam spl Rv (waves.getD i 0)) ∧
    (Redlaw.exctinction_R136 spl waves Rv).length = waves.length ∧
    (∀ i, i < waves.length →
      (Redlaw.exctinction_R136 spl waves Rv).getD i 0 =
        Redlaw.Alam_Av_lam spl Rv (waves.getD i 0)) := by
  refine ⟨pipeline_length _ _ _ _ _ _ _, fun i hi => ?_,
    pipeline_length _ _ _ _ _ _ _, fun i hi => ?_⟩
  · exact pipeline_getD _ _ _ _ _ _ _ i hi
  · exact pipeline_getD _ _ _ _ _ _ _ i hi

/-- Witness for C2 at waves = [5000 Å, 2000 Å], Rv = 3. -/
theorem claim_C2_length_order_witness :
    ([(5000 : ℚ), 2000] ≠ []) ∧ ((3 : ℚ) ≠ 0) ∧
    (ExtinctionLaw.exctinction_R136 spl0 [(5000 : ℚ), 2000] 3).length =
      ([(5000 : ℚ), 2000]).length ∧
    (ExtinctionLaw.exctinction_R136 spl0 [(5000 : ℚ), 2000] 3).getD 0 0 =
      ExtinctionLaw.Alam_Av_lam spl0 3 ([(5000 : ℚ), 2000].getD 0 0) ∧
    (Redlaw.exctinction_R136 spl0 [(5000 : ℚ), 2000] 3).length =
      ([(5000 : ℚ), 2000]).length ∧
    (Redlaw.exctinction_R136 spl0 [(5000 : ℚ), 2000] 3).getD 1 0 =
      Redlaw.Alam_Av_lam spl0 3 ([(5000 : ℚ), 2000].getD 1 0) := by
  have h := claim_C2_length_order spl0 [(5000 : ℚ), 2000] 3 (by simp)
    (by norm_num) (by norm_num)
  exact ⟨by simp, by norm_num, h.1, h.2.1 0 (by norm_num), h.2.2.1,
    h.2.2.2 1 (by norm_num)⟩

/-- C3 counterexample: the source functions perform no input validation and
raise nothing; on empty `waves` — one of the inputs for which the claim
demands an `InvalidInput` error and no result — both variants return
normally, with an (empty) result. -/
theorem claim_C3_counterexample :
    ExtinctionLaw.exctinction_R136_exc spl0 [] 1 = Except.ok [] ∧
    Redlaw.exctinction_R136_exc spl0 [] 1 = Except.ok [] := ⟨rfl, rfl⟩

/-- C3 amended: neither variant validates its input or raises: every call,
including calls with empty `waves`, non-positive wavelengths or Rv = 0,
returns normally with a full-length result (in the floating-point source
such invalid values propagate as non-finite floats rather than errors). -/
theorem claim_C3_no_validation (spl : List ℚ → List ℚ → ℚ → ℚ)
    (waves : List ℚ) (Rv : ℚ) :
    ExtinctionLaw.exctinction_R136_exc spl waves Rv =
      Except.ok (ExtinctionLaw.exctinction_R136 spl waves Rv) ∧
    (ExtinctionLaw.exctinction_R136 spl waves Rv).length = waves.length ∧
    Redlaw.exctinction_R136_exc spl waves Rv =
      Except.ok (Redlaw.exctinction_R136 spl waves Rv) ∧
    (Redlaw.exctinction_R136 spl waves Rv).length = waves.length :=
  ⟨rfl, pipeline_length _ _ _ _ _ _ _, rfl, pipeline_length _ _ _ _ _ _ _⟩

/-- C4: each input wavelength is mapped to x = 10000/λ and classified UV iff
x ≥ 10000/2700, optical/NIR iff x < 10000/2700; when no input is
optical/NIR no spline is constructed or evaluated (the result does not
depend on the spline routine at all), and when no input is UV the UV
formula's evaluation points are exactly the two boundary coordinates
10000/2700 and 10000/2600. -/
theorem claim_C4_partition (waves : List ℚ) (Rv : ℚ)
    (spl spl' : List ℚ → List ℚ → ℚ → ℚ) :
    (∀ i, i ∈ iuv waves ↔
      i < waves.length ∧ xcutuv ≤ 10000 / waves.getD i 0) ∧
    (∀ i, i ∈ iopir waves ↔
      i < waves.length ∧ 10000 / waves.getD i 0 < xcutuv) ∧
    (iuv waves = [] → xuv waves = [10000 / 2700, 10000 / 2600]) ∧
    (iopir waves = [] →
      ExtinctionLaw.exctinction_R136 spl waves Rv =
        ExtinctionLaw.exctinction_R136 spl' waves Rv ∧
      Redlaw.exctinction_R136 spl waves Rv =
        Redlaw.exctinction_R136 spl' waves Rv) := by
  refine ⟨fun i => ?_, fun i => ?_, fun h => ?_, fun h => ?_⟩
  · rw [mem_iuv]
    constructor
    · rintro ⟨h1, h2⟩; exact ⟨h1, by rwa [xx_getD waves i h1] at h2⟩
    · rintro ⟨h1, h2⟩; exact ⟨h1, by rwa [xx_getD waves i h1]⟩
  · rw [mem_iopir]
    constructor
    · rintro ⟨h1, h2⟩; exact ⟨h1, by rwa [xx_getD waves i h1] at h2⟩
    · rintro ⟨h1, h2⟩; exact ⟨h1, by rwa [xx_getD waves i h1]⟩
  · rw [xuv, h]
    simp [xspluv]
  · have h0 : ¬ 0 < (iopir waves).length := by
      rw [h]
      exact lt_irrefl 0
    constructor
    · simp only [ExtinctionLaw.exctinction_R136, exctinction_pipeline,
        curveFull, if_neg h0]
    · simp only [Redlaw.exctinction_R136, exctinction_pipeline,
        curveFull, if_neg h0]

/-- Witness for C4: 2000 Å is classified UV, 3000 Å optical/NIR; with the
all-optical input [3000 Å] the UV evaluation points are the two boundary
coordinates; with the all-UV input [2000 Å] the result is the same under
two different spline routines. -/
theorem claim_C4_partition_witness :
    ((0 : ℕ) ∈ iuv [(2000 : ℚ)]) ∧ ((0 : ℕ) ∈ iopir [(3000 : ℚ)]) ∧
    xuv [(3000 : ℚ)] = [10000 / 2700, 10000 / 2600] ∧
    ExtinctionLaw.exctinction_R136 spl0 [(2000 : ℚ)] 3 =
      ExtinctionLaw.exctinction_R136 spl1 [(2000 : ℚ)] 3 ∧
    Redlaw.exctinction_R136 spl0 [(2000 : ℚ)] 3 =
      Redlaw.exctinction_R136 spl1 [(2000 : ℚ)] 3 := by
  refine ⟨?_, ?_, ?_, ?_, ?_⟩
  · exact ((claim_C4_partition [(2000 : ℚ)] 3 spl0 spl1).1 0).mpr
      ⟨by norm_num, by norm_num [xcutuv]⟩
  · exact ((claim_C4_partition [(3000 : ℚ)] 3 spl0 spl1).2.1 0).mpr
      ⟨by norm_num, by norm_num [xcutuv]⟩
  · exact (claim_C4_partition [(3000 : ℚ)] 3 spl0 spl1).2.2.1
      (by norm_num [iuv, np_where, xx, xcutuv, List.filter])
  · exact ((claim_C4_partition [(2000 : ℚ)] 3 spl0 spl1).2.2.2
      (by norm_num [iopir, np_where, xx, xcutuv, List.filter])).1
  · exact ((claim_C4_partition [(2000 : ℚ)] 3 spl0 spl1).2.2.2
      (by norm_num [iopir, np_where, xx, xcutuv, List.filter])).2

/-- C5: for every Rv the anchor curve values come one per fixed anchor
wavelength in table order, each evaluated independently; both variants lead
with an anchor at inverse-micron coordinate 0 whose curve value is 0; the
first three variant-1 values are the linear scalings ratio·Rv/3.1 and the
remaining anchors are polynomials Σ aₖ·Rvᵏ in Rv, with coefficient lists of
2 (variant 2) up to 5 (variant 1) terms. -/
theorem claim_C5_anchor_values (Rv : ℚ) :
    ExtinctionLaw.ysplopir Rv =
      [0 * Rv / 3.1, 0.26469 * Rv / 3.1, 0.82925 * Rv / 3.1,
       -4.22809e-1 + 1.0027 * Rv + 2.13572e-4 * Rv ^ 2,
       -5.13540e-2 + 1.00216 * Rv + -7.35778e-5 * Rv ^ 2,
       7.00127e-1 + 1.00184 * Rv + -3.32598e-5 * Rv ^ 2,
       1.19456 + 1.01707 * Rv + -5.46959e-3 * Rv ^ 2 + 7.97809e-4 * Rv ^ 3
         + -4.45636e-5 * Rv ^ 4] ∧
    (ExtinctionLaw.ysplopir Rv).length = ExtinctionLaw.xsplopir.length ∧
    (ExtinctionLaw.ysplopir Rv).getD 0 0 = 0 ∧
    ExtinctionLaw.xsplopir.getD 0 0 = 0 ∧
    Redlaw.ysplopir Rv =
      [0,
       -0.1097 + 0.1195 * Rv, -0.2046 + 0.2228 * Rv, -0.3826 + 0.4167 * Rv,
       -0.5270 + 0.5740 * Rv, -0.6392 + 0.7147 * Rv, -0.0002 + 1.0000 * Rv,
       0.7455 + 1.0023 * Rv, 1.0004 + 1.0000 * Rv, 1.3149 + 0.9887 * Rv,
       1.7931 + 0.9661 * Rv, 2.2580 + 0.9689 * Rv] ∧
    (Redlaw.ysplopir Rv).length = Redlaw.xsplopir.length ∧
    (Redlaw.ysplopir Rv).getD 0 0 = 0 ∧
    Redlaw.xsplopir.getD 0 0 = 0 := by
  refine ⟨?_, ?_, ?_, rfl, ?_, ?_, rfl, rfl⟩
  · show [_, _, _, _, _, _, _] = _
    norm_num [np_polyval]
    refine ⟨by ring, by ring, by ring, by ring⟩
  · simp [ExtinctionLaw.ysplopir, ExtinctionLaw.ysplir, ExtinctionLaw.ysplop,
      ExtinctionLaw.xsplopir, ExtinctionLaw.spline_arr]
  · simp [ExtinctionLaw.ysplopir, ExtinctionLaw.ysplir]
  · show [_, _, _, _, _, _, _, _, _, _, _, _] = _
    norm_num [np_polyval]
    refine ⟨by ring, by ring, by ring, by ring, by ring, by ring, by ring,
      by ring, by ring, by ring, by ring⟩
  · simp [Redlaw.ysplopir, Redlaw.ysplopir_tbl, Redlaw.xsplopir,
      Redlaw.spline_arr]

/-- C6 counterexample: in the src/R136_Extinction_Law.py variant the UV
coefficient c2 does depend on the call input Rv (`c2 = 0.78 + 0.11*Rv`), so
the UV coefficients are not all constants of the law variant: c2 takes
different values at Rv = 3.1 and Rv = 4.1. -/
theorem claim_C6_counterexample :
    ExtinctionLaw.c2 3.1 ≠ ExtinctionLaw.c2 4.1 := by
  norm_num [ExtinctionLaw.c2]

/-- C6 amended: in both variants c3, c4, c5, x0 and γ are constants of the
variant, independent of the call inputs waves and Rv, and c1 is derived from
c2 by the fixed relation c1 = 2.030 − 3.007·c2; variant 2's c2 = 1.30 is
also constant, but variant 1's c2 = 0.78 + 0.11·Rv depends on the call
input Rv (no parameter depends on waves). -/
theorem claim_C6_parameters (Rv : ℚ) :
    ExtinctionLaw.c2 Rv = 0.78 + 0.11 * Rv ∧
    ExtinctionLaw.c1 Rv = 2.030 - 3.007 * ExtinctionLaw.c2 Rv ∧
    ExtinctionLaw.c4 = 0.13 ∧
    Redlaw.c2 = 1.30 ∧
    Redlaw.c1 = 2.030 - 3.007 * Redlaw.c2 ∧
    Redlaw.c4 = 0.09 ∧
    c3 = 1.463 ∧ c5 = 5.9 ∧ x0 = 4.558 ∧ gamma = 0.945 :=
  ⟨rfl, rfl, rfl, rfl, rfl, rfl, rfl, rfl, rfl, rfl⟩

/-- C7: in both variants the control-point coordinate sequence passed to the
spline fit — the anchor coordinates followed by the two UV boundary
coordinates — is strictly increasing in every pair (so the anchors after the
leading zero-frequency anchor are strictly increasing and both boundary
coordinates exceed every anchor coordinate). -/
theorem claim_C7_controls_increasing :
    List.Pairwise (· < ·) (ExtinctionLaw.xsplopir ++ xspluv) ∧
    List.Pairwise (· < ·) (Redlaw.xsplopir ++ xspluv) := by
  constructor
  · norm_num [ExtinctionLaw.xsplopir, ExtinctionLaw.spline_arr, xspluv,
      List.pairwise_cons]
  · norm_num [Redlaw.xsplopir, Redlaw.spline_arr, xspluv,
      List.pairwise_cons]

/-- C8: both variants are deterministic — two calls with equal `waves` and
equal `Rv` (and the same spline routine) return equal outputs; the embedded
functions consult no other state. -/
theorem claim_C8_deterministic (spl : List ℚ → List ℚ → ℚ → ℚ)
    (waves waves' : List ℚ) (Rv Rv' : ℚ)
    (hw : waves = waves') (hr : Rv = Rv') :
    ExtinctionLaw.exctinction_R136 spl waves Rv =
      ExtinctionLaw.exctinction_R136 spl waves' Rv' ∧
    Redlaw.exctinction_R136 spl waves Rv =
      Redlaw.exctinction_R136 spl waves' Rv' := by
  subst hw
  subst hr
  exact ⟨rfl, rfl⟩

/-- Witness for C8 at waves = [2700 Å], Rv = 3. -/
theorem claim_C8_deterministic_witness :
    ([(2700 : ℚ)] = [(2700 : ℚ)]) ∧ ((3 : ℚ) = 3) ∧
    ExtinctionLaw.exctinction_R136 spl0 [(2700 : ℚ)] 3 =
      ExtinctionLaw.exctinction_R136 spl0 [(2700 : ℚ)] 3 ∧
    Redlaw.exctinction_R136 spl0 [(2700 : ℚ)] 3 =
      Redlaw.exctinction_R136 spl0 [(2700 : ℚ)] 3 :=
  ⟨rfl, rfl,
   (claim_C8_deterministic spl0 [(2700 : ℚ)] [(2700 : ℚ)] 3 3 rfl rfl).1,
   (claim_C8_deterministic spl0 [(2700 : ℚ)] [(2700 : ℚ)] 3 3 rfl rfl).2⟩

/-- C9: the denominator of the UV bump term, (x²−x0²)² + (x·γ)² with
x0 = 4.558 and γ = 0.945, is strictly positive for every rational
coordinate x (it could only vanish if x·γ = 0 and x² = x0² held at once,
which is impossible), so the UV formula never divides by zero. -/
theorem claim_C9_bump_denominator_pos : ∀ x : ℚ, 0 < uvDenom x := by
  intro x
  rcases eq_or_ne x 0 with h | h
  · subst h
    norm_num [uvDenom, x0, gamma]
  · have h1 : 0 < (x * gamma) ^ 2 := by
      have hg : x * gamma ≠ 0 := mul_ne_zero h (by norm_num [gamma])
      positivity
    have h2 : 0 ≤ (x ^ 2 - x0 ^ 2) ^ 2 := sq_nonneg _
    have h3 := add_pos_of_nonneg_of_pos h2 h1
    simpa [uvDenom] using h3

/-- C10: neither variant modifies its input: in the frame model, which
returns the caller's `waves` array after the body's statements together with
the result, the returned array is the input array unchanged and the result
is the one computed by the embedded function. -/
theorem claim_C10_input_unchanged (spl : List ℚ → List ℚ → ℚ → ℚ)
    (waves : List ℚ) (Rv : ℚ) :
    (ExtinctionLaw.exctinction_R136_frame spl waves Rv).1 = waves ∧
    (ExtinctionLaw.exctinction_R136_frame spl waves Rv).2 =
      ExtinctionLaw.exctinction_R136 spl waves Rv ∧
    (Redlaw.exctinction_R136_frame spl waves Rv).1 = waves ∧
    (Redlaw.exctinction_R136_frame spl waves Rv).2 =
      Redlaw.exctinction_R136 spl waves Rv :=
  ⟨rfl, rfl, rfl, rfl⟩

end R136
